import Mathlib

/-!
# Verification of the Spaceship realtime session core

A shallow embedding of `src/server/session.go` (package `server`): the
`session` struct, its lifecycle operation `Close`, the send API
(`Send` / `SendBytes`), the keep-alive re-arm `resetPingTimer`, and the
`Consume` read loop.  Concurrency is modelled sequentially: the per-session
mutex disappears (every embedded operation is one critical section), the
atomic compare-and-swap gate `pingTimerCas` is an explicit `Nat` field
(1 = free, 0 = claimed), and the buffered channel `outgoingCh` is a FIFO
list with an explicit capacity field.  Fallible I/O on the websocket
connection (set-read-deadline, the close control frame, the final socket
close) is driven by an `IOEnv` of outcome booleans; side effects that the
spec orders (registry removal, timer stop, queue close, frame writes) are
recorded in an explicit trace of `Effect`s.
-/

namespace Spaceship

/-- The state of the single-shot keep-alive timer `pingTimer`
(`time.Timer`): `active` means it is armed and will fire; `tickPending`
means it has fired and the tick sits unconsumed in its channel. -/
structure TimerState where
  active : Bool
  tickPending : Bool
deriving DecidableEq, Repr

/-- Outcomes of the connection-level I/O operations a session step may
perform, plus the current clock: `setReadDeadlineOk` is whether
`conn.SetReadDeadline` succeeds, `writeControlOk` whether the close
control frame write succeeds, `connCloseOk` whether `conn.Close`
succeeds. -/
structure IOEnv where
  now : Nat
  setReadDeadlineOk : Bool
  writeControlOk : Bool
  connCloseOk : Bool
deriving DecidableEq, Repr

/-- The `session` struct of `session.go`.  Payloads are byte lists; the
registry (`sessionHolder`) is modelled by whether it still contains this
session.  `configReceivedMessageDecrementCount` embeds
`config.SocketConfig.ReceivedMessageDecrementCount`, the value the
throttle counter is restored to; `outgoingQueueSize` embeds the capacity
of the buffered channel `outgoingCh`. -/
structure SessionState where
  id : Nat
  userID : String
  username : String
  expiry : Int
  clientIP : String
  clientPort : String
  pingPeriodTime : Nat
  pongWaitTime : Nat
  writeWaitTime : Nat
  receivedMsgDecrement : Int
  configReceivedMessageDecrementCount : Int
  outgoingQueueSize : Nat
  pingTimer : TimerState
  pingTimerCas : Nat
  outgoingCh : List (List Nat)
  outgoingChClosed : Bool
  readDeadline : Nat
  registryContains : Bool
  closed : Bool
deriving DecidableEq, Repr

/-- The observable side effects of teardown, in the order performed. -/
inductive Effect where
  | removeRegistry (id : Nat)
  | stopTimer
  | closeQueue
  | writeCloseFrame (deadline : Nat) (ok : Bool)
  | closeConn (ok : Bool)
deriving DecidableEq, Repr

/-- The structured message envelope (`socketapi.Envelope`): a correlation
id and an optional message-kind payload (abstracted to a tag). -/
structure Envelope where
  cid : String
  message : Option Nat
deriving DecidableEq, Repr

/-- The zero value `&socketapi.Envelope{}` that the read loop allocates
before unmarshalling. -/
def Envelope.zero : Envelope := { cid := "", message := none }

/-- `session.Close` (session.go:296-317).  Check-and-set the closed flag
under the lock; if already closed return with no effect.  Otherwise:
remove from the registry, stop the keep-alive timer, close the outgoing
queue, best-effort write of the close control frame with deadline
`now + writeWaitTime`, best-effort close of the connection.  The two
best-effort failures are only logged and never stop the remaining steps. -/
def Close (env : IOEnv) (s : SessionState) : SessionState × List Effect :=
  if s.closed then (s, [])
  else
    let s1 := { s with closed := true,
                       registryContains := false,
                       pingTimer := { s.pingTimer with active := false },
                       outgoingChClosed := true }
    (s1, [Effect.removeRegistry s.id, Effect.stopTimer, Effect.closeQueue,
          Effect.writeCloseFrame (env.now + s.writeWaitTime) env.writeControlOk,
          Effect.closeConn env.connCloseOk])

/-- `session.SendBytes` (session.go:267-294).  Under the lock: if closed,
silently succeed (no-op).  If `isStream`, enqueue unconditionally (the
blocking channel send) and succeed.  Otherwise try a non-blocking enqueue:
success if the queue has a free slot; when full, trigger `Close` and
return the "outgoing queue full" error. -/
def SendBytes (env : IOEnv) (s : SessionState) (isStream : Bool) (mode : Nat)
    (payload : List Nat) : SessionState × Option String :=
  let _ := mode
  if s.closed then (s, none)
  else if isStream then ({ s with outgoingCh := s.outgoingCh ++ [payload] }, none)
  else if s.outgoingCh.length < s.outgoingQueueSize then
    ({ s with outgoingCh := s.outgoingCh ++ [payload] }, none)
  else
    ((Close env s).1, some "outgoing queue full")

/-- `session.Send` (session.go:251-265).  Marshal the envelope with the
wire codec (`jsonProtoMarshler`, external, passed as a function); on
marshal failure, log and return that error without touching the session.
On success delegate to `SendBytes`. -/
def Send (marshal : Envelope → Except String (List Nat)) (env : IOEnv)
    (s : SessionState) (isStream : Bool) (mode : Nat) (envelope : Envelope) :
    SessionState × Option String :=
  match marshal envelope with
  | Except.error e => (s, some e)
  | Except.ok payload => SendBytes env s isStream mode payload

/-- `session.resetPingTimer` (session.go:168-197).  Claim the exclusive
gate with `CAS(1,0)`; if that fails, report success immediately.  If the
session is closed, release the gate (the deferred `CAS(0,1)`) and report
failure.  Otherwise stop the timer — draining an already-fired unconsumed
tick when `Stop` reports the timer was no longer active — re-arm it for
one ping period, and extend the read deadline to `now + pongWaitTime`; if
extending the deadline fails, close the session and report failure.  The
deferred gate release runs on every path after the claim. -/
def resetPingTimer (env : IOEnv) (s : SessionState) : SessionState × Bool :=
  if s.pingTimerCas ≠ 1 then (s, true)
  else
    let s0 := { s with pingTimerCas := 0 }
    if s0.closed then ({ s0 with pingTimerCas := 1 }, false)
    else
      let stopped := s0.pingTimer.active
      let t1 : TimerState :=
        if stopped then { s0.pingTimer with active := false }
        else { s0.pingTimer with active := false, tickPending := false }
      let t2 : TimerState := { t1 with active := true }
      let s1 := { s0 with pingTimer := t2 }
      if env.setReadDeadlineOk then
        ({ s1 with readDeadline := env.now + s1.pongWaitTime, pingTimerCas := 1 }, true)
      else
        let s2 := (Close env s1).1
        ({ s2 with pingTimerCas := 1 }, false)

/-- `session.SetUsername` (session.go:102-104). -/
def SetUsername (s : SessionState) (username : String) : SessionState :=
  { s with username := username }

/-- `session.Username` (session.go:98-100). -/
def Username (s : SessionState) : String :=
  s.username

/-- One inbound event observed by `conn.ReadMessage` in the read loop:
either a read error (peer close, deadline expiry, ...) or a data frame. -/
inductive ReadEvent where
  | readErr
  | frame (data : List Nat)
deriving DecidableEq, Repr

/-- How a finite run of the read loop ended: still blocked reading
(`stillRunning`), broke on a read error, returned because a ping-timer
re-arm failed, or broke because the handler signalled stop. -/
inductive LoopExit where
  | stillRunning
  | readError
  | resetFailed
  | handlerStopped
deriving DecidableEq, Repr

/-- Result of running the read loop over a finite list of inbound events:
final session state, the envelopes passed to the handler in order, the
number of `resetPingTimer` attempts made, and how the loop ended. -/
structure LoopResult where
  st : SessionState
  calls : List Envelope
  resetAttempts : Nat
  exit : LoopExit
deriving DecidableEq, Repr

/-- The body of the `for` loop in `session.Consume` (session.go:126-164),
run over a finite list of inbound events.  Per successful read: decrement
the throttle counter; when it drops below 1, restore it to the configured
count and attempt `resetPingTimer`, returning (aborting the loop) if the
attempt fails; unmarshal the frame into a fresh zero envelope — on decode
failure the error is only logged (the `break` is commented out in the
source) and the zero-valued envelope falls through; invoke `handlerFunc`
and break when it returns false.  The external unmarshaller is a function
returning `none` on decode failure. -/
def consumeSteps (env : IOEnv) (unmarshal : List Nat → Option Envelope)
    (handlerFunc : SessionState → Envelope → Bool) :
    List ReadEvent → SessionState → List Envelope → Nat → LoopResult
  | [], s, calls, attempts =>
    { st := s, calls := calls, resetAttempts := attempts, exit := LoopExit.stillRunning }
  | ReadEvent.readErr :: _, s, calls, attempts =>
    { st := s, calls := calls, resetAttempts := attempts, exit := LoopExit.readError }
  | ReadEvent.frame data :: rest, s, calls, attempts =>
    let s1 := { s with receivedMsgDecrement := s.receivedMsgDecrement - 1 }
    if s1.receivedMsgDecrement < 1 then
      let s2 := { s1 with receivedMsgDecrement := s1.configReceivedMessageDecrementCount }
      let r := resetPingTimer env s2
      if r.2 then
        let request := (unmarshal data).getD Envelope.zero
        if handlerFunc r.1 request then
          consumeSteps env unmarshal handlerFunc rest r.1 (calls ++ [request]) (attempts + 1)
        else
          { st := r.1, calls := calls ++ [request], resetAttempts := attempts + 1,
            exit := LoopExit.handlerStopped }
      else
        { st := r.1, calls := calls, resetAttempts := attempts + 1,
          exit := LoopExit.resetFailed }
    else
      let request := (unmarshal data).getD Envelope.zero
      if handlerFunc s1 request then
        consumeSteps env unmarshal handlerFunc rest s1 (calls ++ [request]) attempts
      else
        { st := s1, calls := calls ++ [request], resetAttempts := attempts,
          exit := LoopExit.handlerStopped }

/-- `session.Consume` (session.go:111-166) over a finite inbound prefix:
set the initial read deadline (failure closes the session immediately),
run the loop, and — via the deferred `Close` — tear the session down on
any loop exit.  A `stillRunning` result models the loop still blocked in
`ReadMessage`, so the deferred `Close` has not yet run. -/
def Consume (env : IOEnv) (unmarshal : List Nat → Option Envelope)
    (handlerFunc : SessionState → Envelope → Bool)
    (events : List ReadEvent) (s : SessionState) : LoopResult :=
  if env.setReadDeadlineOk then
    let r := consumeSteps env unmarshal handlerFunc events
      { s with readDeadline := env.now + s.pongWaitTime } [] 0
    if r.exit = LoopExit.stillRunning then r
    else { r with st := (Close env r.st).1 }
  else
    { st := (Close env s).1, calls := [], resetAttempts := 0, exit := LoopExit.readError }

/-- A concrete open session used to instantiate theorems. -/
def sampleSession : SessionState :=
  { id := 7
    userID := "u1"
    username := "alice"
    expiry := 1000
    clientIP := "127.0.0.1"
    clientPort := "4000"
    pingPeriodTime := 100
    pongWaitTime := 250
    writeWaitTime := 50
    receivedMsgDecrement := 5
    configReceivedMessageDecrementCount := 5
    outgoingQueueSize := 2
    pingTimer := { active := true, tickPending := false }
    pingTimerCas := 1
    outgoingCh := []
    outgoingChClosed := false
    readDeadline := 0
    registryContains := true
    closed := false }

/-- A concrete environment in which every I/O operation succeeds. -/
def sampleEnv : IOEnv :=
  { now := 500, setReadDeadlineOk := true, writeControlOk := true, connCloseOk := true }

/-- A concrete closed session. -/
def sampleClosedSession : SessionState :=
  { sampleSession with closed := true }

/-- A concrete open session whose outgoing queue is at capacity (2 of 2). -/
def sampleFullSession : SessionState :=
  { sampleSession with outgoingCh := [[10], [11]] }

/-- C4: on a session whose closed flag is set, `SendBytes` returns nil for
every `isStream` and payload, enqueues nothing, and leaves the session
state untouched — a silent no-op. -/
theorem C4_sendBytes_closed_silent_noop (env : IOEnv) (s : SessionState)
    (isStream : Bool) (mode : Nat) (payload : List Nat) (h : s.closed = true) :
    SendBytes env s isStream mode payload = (s, none) := by
  simp [SendBytes, h]

/-- Witness for C4 at a concrete closed session. -/
theorem C4_sendBytes_closed_silent_noop_witness :
    SendBytes sampleEnv sampleClosedSession true 0 [1, 2] = (sampleClosedSession, none) :=
  C4_sendBytes_closed_silent_noop sampleEnv sampleClosedSession true 0 [1, 2] rfl

/-- C10: `SetUsername` mutates only the username field: identity, user id,
expiry, client IP and port, the three durations, the closed flag and the
throttle counter are unchanged, and `Username` returns the new name. -/
theorem C10_setUsername_only_username (s : SessionState) (name : String) :
    Username (SetUsername s name) = name ∧
    (SetUsername s name).id = s.id ∧
    (SetUsername s name).userID = s.userID ∧
    (SetUsername s name).expiry = s.expiry ∧
    (SetUsername s name).clientIP = s.clientIP ∧
    (SetUsername s name).clientPort = s.clientPort ∧
    (SetUsername s name).pingPeriodTime = s.pingPeriodTime ∧
    (SetUsername s name).pongWaitTime = s.pongWaitTime ∧
    (SetUsername s name).writeWaitTime = s.writeWaitTime ∧
    (SetUsername s name).closed = s.closed ∧
    (SetUsername s name).receivedMsgDecrement = s.receivedMsgDecrement := by
  simp [SetUsername, Username]

/-- C6: on an open session, the stream path of `SendBytes` enqueues the
payload unconditionally — no capacity check, the blocking channel send
never drops — and always returns nil. -/
theorem C6_sendBytes_stream_always_enqueues (env : IOEnv) (s : SessionState)
    (mode : Nat) (payload : List Nat) (h : s.closed = false) :
    SendBytes env s true mode payload =
      ({ s with outgoingCh := s.outgoingCh ++ [payload] }, none) := by
  simp [SendBytes, h]

/-- Witness for C6 at a concrete open session whose queue is already at
capacity: the enqueue still happens and no error is returned. -/
theorem C6_sendBytes_stream_always_enqueues_witness :
    SendBytes sampleEnv sampleFullSession true 0 [1] =
      ({ sampleFullSession with outgoingCh := sampleFullSession.outgoingCh ++ [[1]] }, none) :=
  C6_sendBytes_stream_always_enqueues sampleEnv sampleFullSession 0 [1] rfl

/-- C9: `Send` marshals the envelope before consulting the closed flag:
whenever the marshaller fails, `Send` returns exactly that marshal error —
on every session state, closed ones included — with the session unchanged
and nothing enqueued. -/
theorem C9_send_marshal_error_precedes_closed_check
    (marshal : Envelope → Except String (List Nat)) (env : IOEnv) (s : SessionState)
    (isStream : Bool) (mode : Nat) (envelope : Envelope) (e : String)
    (h : marshal envelope = Except.error e) :
    Send marshal env s isStream mode envelope = (s, some e) := by
  simp [Send, h]

/-- Witness for C9 at a concrete closed session and an always-failing
marshaller: `Send` reports the error although `SendBytes` on the same
closed session would return nil. -/
theorem C9_send_marshal_error_precedes_closed_check_witness :
    Send (fun _ => Except.error "marshal failed") sampleEnv sampleClosedSession false 0
      Envelope.zero = (sampleClosedSession, some "marshal failed") :=
  C9_send_marshal_error_precedes_closed_check (fun _ => Except.error "marshal failed")
    sampleEnv sampleClosedSession false 0 Envelope.zero "marshal failed" rfl

/-- C2: on an open session, a non-stream `SendBytes` against a queue at
capacity enqueues nothing, returns the "outgoing queue full" error, and
leaves the session closed (Close is triggered); with a free slot it
enqueues and returns nil. -/
theorem C2_sendBytes_backpressure (env : IOEnv) (s : SessionState)
    (mode : Nat) (payload : List Nat) (hopen : s.closed = false) :
    (s.outgoingCh.length = s.outgoingQueueSize →
      (SendBytes env s false mode payload).2 = some "outgoing queue full" ∧
      (SendBytes env s false mode payload).1.closed = true ∧
      (SendBytes env s false mode payload).1.outgoingCh = s.outgoingCh) ∧
    (s.outgoingCh.length < s.outgoingQueueSize →
      SendBytes env s false mode payload =
        ({ s with outgoingCh := s.outgoingCh ++ [payload] }, none)) := by
  constructor
  · intro hfull
    simp [SendBytes, Close, hopen, hfull]
  · intro hfree
    simp [SendBytes, hopen, hfree]

/-- Witness for C2: the full-queue branch at a concrete session with a
saturated queue, and the free-slot branch at a concrete empty-queue
session. -/
theorem C2_sendBytes_backpressure_witness :
    ((SendBytes sampleEnv sampleFullSession false 0 [1]).2 = some "outgoing queue full" ∧
     (SendBytes sampleEnv sampleFullSession false 0 [1]).1.closed = true ∧
     (SendBytes sampleEnv sampleFullSession false 0 [1]).1.outgoingCh =
       sampleFullSession.outgoingCh) ∧
    SendBytes sampleEnv sampleSession false 0 [1] =
      ({ sampleSession with outgoingCh := sampleSession.outgoingCh ++ [[1]] }, none) :=
  ⟨(C2_sendBytes_backpressure sampleEnv sampleFullSession 0 [1] rfl).1 (by decide),
   (C2_sendBytes_backpressure sampleEnv sampleSession 0 [1] rfl).2 (by decide)⟩

/-- C3: `Close` is idempotent: the first invocation on an open session
sets the closed flag and emits the registry removal for this session's id
exactly once in its teardown trace, and any subsequent invocation returns
the state unchanged with an empty effect trace — so across any number of
invocations `remove(sessionID)` happens exactly once. -/
theorem C3_close_idempotent (env env2 : IOEnv) (s : SessionState)
    (h : s.closed = false) :
    (Close env s).1.closed = true ∧
    (Close env s).2.count (Effect.removeRegistry s.id) = 1 ∧
    Close env2 (Close env s).1 = ((Close env s).1, []) := by
  refine ⟨by simp [Close, h], ?_, by simp [Close, h]⟩
  simp [Close, h, List.count_cons]

/-- Witness for C3 at a concrete open session and two distinct
environments. -/
theorem C3_close_idempotent_witness :
    (Close sampleEnv sampleSession).1.closed = true ∧
    (Close sampleEnv sampleSession).2.count (Effect.removeRegistry sampleSession.id) = 1 ∧
    Close { sampleEnv with writeControlOk := false } (Close sampleEnv sampleSession).1 =
      ((Close sampleEnv sampleSession).1, []) :=
  C3_close_idempotent sampleEnv { sampleEnv with writeControlOk := false } sampleSession rfl

/-- C8: the first `Close` of an open session performs its teardown steps in
exactly this order — registry removal for this session's id, timer stop,
queue close, the best-effort close-frame write with deadline
`now + writeWaitTime`, the best-effort connection close — for every
combination of I/O outcomes, and the closed flag is set regardless, so a
failed best-effort step never prevents the later steps or the state
transition. -/
theorem C8_close_teardown_order (env : IOEnv) (s : SessionState)
    (h : s.closed = false) :
    (Close env s).2 =
      [Effect.removeRegistry s.id, Effect.stopTimer, Effect.closeQueue,
       Effect.writeCloseFrame (env.now + s.writeWaitTime) env.writeControlOk,
       Effect.closeConn env.connCloseOk] ∧
    (Close env s).1.closed = true := by
  simp [Close, h]

/-- Witness for C8 at a concrete open session in an environment where both
best-effort I/O steps fail. -/
theorem C8_close_teardown_order_witness :
    (Close { sampleEnv with writeControlOk := false, connCloseOk := false }
        sampleSession).2 =
      [Effect.removeRegistry sampleSession.id, Effect.stopTimer, Effect.closeQueue,
       Effect.writeCloseFrame
         ({ sampleEnv with writeControlOk := false, connCloseOk := false }.now +
           sampleSession.writeWaitTime) false,
       Effect.closeConn false] ∧
    (Close { sampleEnv with writeControlOk := false, connCloseOk := false }
        sampleSession).1.closed = true :=
  C8_close_teardown_order { sampleEnv with writeControlOk := false, connCloseOk := false }
    sampleSession rfl

/-- C5: `resetPingTimer` follows the specified re-arm sequence: a claimed
gate yields immediate success with no state change; an acquired gate on a
closed session yields failure with the gate released and nothing else
touched; on an open session with a working connection it stops the timer
(draining a fired unconsumed tick exactly when `Stop` reports the timer
was no longer active), re-arms it, extends the read deadline to
`now + pongWaitTime`, releases the gate and succeeds; and when extending
the read deadline fails it closes the session and fails, the gate again
released. -/
theorem C5_resetPingTimer_sequence (env : IOEnv) (s : SessionState) :
    (s.pingTimerCas ≠ 1 → resetPingTimer env s = (s, true)) ∧
    (s.pingTimerCas = 1 → s.closed = true →
      resetPingTimer env s = ({ s with pingTimerCas := 1 }, false)) ∧
    (s.pingTimerCas = 1 → s.closed = false → env.setReadDeadlineOk = true →
      resetPingTimer env s =
        ({ s with
            pingTimer := { active := true,
                           tickPending := if s.pingTimer.active then
                             s.pingTimer.tickPending else false },
            readDeadline := env.now + s.pongWaitTime,
            pingTimerCas := 1 }, true)) ∧
    (s.pingTimerCas = 1 → s.closed = false → env.setReadDeadlineOk = false →
      (resetPingTimer env s).2 = false ∧
      (resetPingTimer env s).1.closed = true ∧
      (resetPingTimer env s).1.pingTimerCas = 1 ∧
      (resetPingTimer env s).1.registryContains = false) := by
  refine ⟨fun hcas => ?_, fun hcas hclosed => ?_, fun hcas hopen hok => ?_,
    fun hcas hopen hfail => ?_⟩
  · simp [resetPingTimer, hcas]
  · simp [resetPingTimer, hcas, hclosed]
  · cases hact : s.pingTimer.active <;>
      simp [resetPingTimer, hcas, hopen, hok, hact]
  · cases hact : s.pingTimer.active <;>
      simp [resetPingTimer, Close, hcas, hopen, hfail, hact]

/-- Witness for C5: all four branches of the re-arm sequence at concrete
sessions — claimed gate, closed session, healthy open session, and open
session whose deadline extension fails. -/
theorem C5_resetPingTimer_sequence_witness :
    resetPingTimer sampleEnv { sampleSession with pingTimerCas := 0 } =
      ({ sampleSession with pingTimerCas := 0 }, true) ∧
    resetPingTimer sampleEnv sampleClosedSession =
      ({ sampleClosedSession with pingTimerCas := 1 }, false) ∧
    resetPingTimer sampleEnv sampleSession =
      ({ sampleSession with
          pingTimer := { active := true,
                         tickPending := if sampleSession.pingTimer.active then
                           sampleSession.pingTimer.tickPending else false },
          readDeadline := sampleEnv.now + sampleSession.pongWaitTime,
          pingTimerCas := 1 }, true) ∧
    ((resetPingTimer { sampleEnv with setReadDeadlineOk := false } sampleSession).2 = false ∧
     (resetPingTimer { sampleEnv with setReadDeadlineOk := false } sampleSession).1.closed = true ∧
     (resetPingTimer { sampleEnv with setReadDeadlineOk := false } sampleSession).1.pingTimerCas = 1 ∧
     (resetPingTimer { sampleEnv with setReadDeadlineOk := false }
         sampleSession).1.registryContains = false) :=
  ⟨(C5_resetPingTimer_sequence sampleEnv { sampleSession with pingTimerCas := 0 }).1
      (by decide),
   (C5_resetPingTimer_sequence sampleEnv sampleClosedSession).2.1 rfl rfl,
   (C5_resetPingTimer_sequence sampleEnv sampleSession).2.2.1 rfl rfl rfl,
   (C5_resetPingTimer_sequence { sampleEnv with setReadDeadlineOk := false }
      sampleSession).2.2.2 rfl rfl rfl⟩

/-- A concrete unmarshaller: the frame `[1]` decodes to a well-formed
envelope, every other frame fails to decode. -/
def sampleUnmarshal (data : List Nat) : Option Envelope :=
  if data = [1] then some { cid := "good", message := some 1 } else none

/-- A concrete handler that always signals "continue". -/
def sampleHandler (_ : SessionState) (_ : Envelope) : Bool := true

/-- C1 is false on the code: feeding one malformed frame (`[0]`, which
fails to decode) followed by one well-formed frame (`[1]`) to the read
loop invokes the handler twice, not exactly once — the decode failure is
only logged and the zero-valued envelope falls through to the handler. -/
theorem C1_counterexample_handler_called_twice :
    ¬ ((consumeSteps sampleEnv sampleUnmarshal sampleHandler
          [ReadEvent.frame [0], ReadEvent.frame [1]] sampleSession [] 0).calls.length = 1) := by
  decide

/-- C1 (amended): a frame that fails to decode is not dropped: for one
malformed frame followed by one well-formed frame, the handler is invoked
exactly twice — first with the zero-valued envelope left by the failed
decode, then with the decoded well-formed envelope — the loop continues
and the session stays open, the only state change being the two throttle
decrements. -/
theorem C1_decode_failure_falls_through (env : IOEnv)
    (unmarshal : List Nat → Option Envelope)
    (handlerFunc : SessionState → Envelope → Bool)
    (bad good : List Nat) (e : Envelope) (s : SessionState)
    (hbad : unmarshal bad = none) (hgood : unmarshal good = some e)
    (hcnt : 3 ≤ s.receivedMsgDecrement) (hopen : s.closed = false)
    (hh : ∀ t x, handlerFunc t x = true) :
    consumeSteps env unmarshal handlerFunc [ReadEvent.frame bad, ReadEvent.frame good] s [] 0 =
      { st := { s with receivedMsgDecrement := s.receivedMsgDecrement - 2 },
        calls := [Envelope.zero, e],
        resetAttempts := 0,
        exit := LoopExit.stillRunning } ∧
    (consumeSteps env unmarshal handlerFunc [ReadEvent.frame bad, ReadEvent.frame good]
        s [] 0).st.closed = false := by
  have h1 : ¬ (s.receivedMsgDecrement - 1 < 1) := by omega
  have h2 : ¬ (s.receivedMsgDecrement - 1 - 1 < 1) := by omega
  constructor
  · simp [consumeSteps, hbad, hgood, hh, h1, h2]
    omega
  · simp [consumeSteps, hbad, hgood, hh, h1, h2, hopen]

/-- Witness for C1 (amended) at the concrete malformed/well-formed pair. -/
theorem C1_decode_failure_falls_through_witness :
    consumeSteps sampleEnv sampleUnmarshal sampleHandler
        [ReadEvent.frame [0], ReadEvent.frame [1]] sampleSession [] 0 =
      { st := { sampleSession with
                  receivedMsgDecrement := sampleSession.receivedMsgDecrement - 2 },
        calls := [Envelope.zero, { cid := "good", message := some 1 }],
        resetAttempts := 0,
        exit := LoopExit.stillRunning } ∧
    (consumeSteps sampleEnv sampleUnmarshal sampleHandler
        [ReadEvent.frame [0], ReadEvent.frame [1]] sampleSession [] 0).st.closed = false :=
  C1_decode_failure_falls_through sampleEnv sampleUnmarshal sampleHandler [0] [1]
    { cid := "good", message := some 1 } sampleSession rfl rfl (by decide) rfl
    (fun _ _ => rfl)

/-- The session state after a successful in-loop re-arm on the frame that
drove the throttle counter below 1: counter restored to the configured
count, timer stopped/drained/re-armed, read deadline extended, gate
released. -/
def rearmedState (env : IOEnv) (s : SessionState) : SessionState :=
  { s with receivedMsgDecrement := s.configReceivedMessageDecrementCount,
           pingTimer := { active := true,
                          tickPending := if s.pingTimer.active then
                            s.pingTimer.tickPending else false },
           readDeadline := env.now + s.pongWaitTime,
           pingTimerCas := 1 }

theorem consumeSteps_step_noTrigger (env : IOEnv) (u : List Nat → Option Envelope)
    (hf : SessionState → Envelope → Bool) (d : List Nat) (rest : List ReadEvent)
    (s : SessionState) (calls : List Envelope) (att : Nat)
    (hcnt : ¬ (s.receivedMsgDecrement - 1 < 1)) (hh : ∀ t x, hf t x = true) :
    consumeSteps env u hf (ReadEvent.frame d :: rest) s calls att =
      consumeSteps env u hf rest
        { s with receivedMsgDecrement := s.receivedMsgDecrement - 1 }
        (calls ++ [(u d).getD Envelope.zero]) att := by
  simp [consumeSteps, hcnt, hh]

theorem consumeSteps_run_noTrigger (env : IOEnv) (u : List Nat → Option Envelope)
    (hf : SessionState → Envelope → Bool) (d : List Nat) (hh : ∀ t x, hf t x = true) :
    ∀ (k : Nat) (s : SessionState) (rest : List ReadEvent) (calls : List Envelope)
      (att : Nat), (k : Int) < s.receivedMsgDecrement →
      consumeSteps env u hf (List.replicate k (ReadEvent.frame d) ++ rest) s calls att =
        consumeSteps env u hf rest
          { s with receivedMsgDecrement := s.receivedMsgDecrement - k }
          (calls ++ List.replicate k ((u d).getD Envelope.zero)) att := by
  intro k
  induction k with
  | zero =>
    intro s rest calls att _
    simp only [List.replicate_zero, List.nil_append, Int.Nat.cast_ofNat_Int,
      Int.sub_zero, List.append_nil]
  | succ k ih =>
    intro s rest calls att hlt
    rw [List.replicate_succ, List.cons_append]
    rw [consumeSteps_step_noTrigger env u hf d _ s calls att (by omega) hh]
    rw [ih _ _ _ _ (by simp; omega)]
    have h3 : s.receivedMsgDecrement - 1 - (k : Int) =
        s.receivedMsgDecrement - ((k : Nat) + 1 : Nat) := by push_cast; ring
    simp only [h3]
    congr 1
    simp [List.replicate_succ, List.append_assoc]

theorem consumeSteps_trigger_ok (env : IOEnv) (u : List Nat → Option Envelope)
    (hf : SessionState → Envelope → Bool) (d : List Nat) (rest : List ReadEvent)
    (s : SessionState) (calls : List Envelope) (att : Nat)
    (hcnt : s.receivedMsgDecrement = 1) (hopen : s.closed = false)
    (hcas : s.pingTimerCas = 1) (hok : env.setReadDeadlineOk = true)
    (hh : ∀ t x, hf t x = true) :
    consumeSteps env u hf (ReadEvent.frame d :: rest) s calls att =
      consumeSteps env u hf rest (rearmedState env s)
        (calls ++ [(u d).getD Envelope.zero]) (att + 1) := by
  cases hact : s.pingTimer.active <;>
    simp [consumeSteps, resetPingTimer, rearmedState, hcnt, hopen, hcas, hok, hh, hact]

theorem consumeSteps_trigger_fail (env : IOEnv) (u : List Nat → Option Envelope)
    (hf : SessionState → Envelope → Bool) (d : List Nat) (rest : List ReadEvent)
    (s : SessionState) (calls : List Envelope) (att : Nat)
    (hcnt : s.receivedMsgDecrement = 1) (hopen : s.closed = false)
    (hcas : s.pingTimerCas = 1) (hfail : env.setReadDeadlineOk = false) :
    (consumeSteps env u hf (ReadEvent.frame d :: rest) s calls att).exit =
      LoopExit.resetFailed ∧
    (consumeSteps env u hf (ReadEvent.frame d :: rest) s calls att).resetAttempts = att + 1 ∧
    (consumeSteps env u hf (ReadEvent.frame d :: rest) s calls att).calls = calls ∧
    (consumeSteps env u hf (ReadEvent.frame d :: rest) s calls att).st.closed = true := by
  refine ⟨?_, ?_, ?_, ?_⟩ <;>
    simp [consumeSteps, resetPingTimer, Close, hcnt, hopen, hcas, hfail]

theorem consumeSteps_block (env : IOEnv) (u : List Nat → Option Envelope)
    (hf : SessionState → Envelope → Bool) (d : List Nat) (n : Nat)
    (rest : List ReadEvent) (s : SessionState) (calls : List Envelope) (att : Nat)
    (hcnt : s.receivedMsgDecrement = (n : Int) + 1) (hopen : s.closed = false)
    (hcas : s.pingTimerCas = 1) (hok : env.setReadDeadlineOk = true)
    (hh : ∀ t x, hf t x = true) :
    consumeSteps env u hf (List.replicate (n + 1) (ReadEvent.frame d) ++ rest) s calls att =
      consumeSteps env u hf rest (rearmedState env s)
        (calls ++ List.replicate (n + 1) ((u d).getD Envelope.zero)) (att + 1) := by
  rw [List.replicate_succ', List.append_assoc]
  rw [consumeSteps_run_noTrigger env u hf d hh n s _ calls att (by omega)]
  rw [List.singleton_append]
  rw [consumeSteps_trigger_ok env u hf d rest _ _ att (by simp [hcnt])
    (by simp [hopen]) (by simp [hcas]) hok hh]
  congr 1
  simp [List.replicate_succ', List.append_assoc]

theorem consumeSteps_blocks (env : IOEnv) (u : List Nat → Option Envelope)
    (hf : SessionState → Envelope → Bool) (d : List Nat) (n : Nat)
    (hok : env.setReadDeadlineOk = true) (hh : ∀ t x, hf t x = true) :
    ∀ (m : Nat) (s : SessionState) (calls : List Envelope) (att : Nat),
      s.receivedMsgDecrement = (n : Int) + 1 →
      s.configReceivedMessageDecrementCount = (n : Int) + 1 →
      s.closed = false → s.pingTimerCas = 1 →
      (consumeSteps env u hf (List.replicate (m * (n + 1)) (ReadEvent.frame d))
          s calls att).resetAttempts = att + m ∧
      (consumeSteps env u hf (List.replicate (m * (n + 1)) (ReadEvent.frame d))
          s calls att).exit = LoopExit.stillRunning ∧
      (consumeSteps env u hf (List.replicate (m * (n + 1)) (ReadEvent.frame d))
          s calls att).st.receivedMsgDecrement = (n : Int) + 1 ∧
      (consumeSteps env u hf (List.replicate (m * (n + 1)) (ReadEvent.frame d))
          s calls att).st.closed = false := by
  intro m
  induction m with
  | zero =>
    intro s calls att hcnt _ hopen _
    simp [consumeSteps, hcnt, hopen]
  | succ m ih =>
    intro s calls att hcnt hcfg hopen hcas
    have hsplit : (m + 1) * (n + 1) = (n + 1) + m * (n + 1) := by ring
    rw [hsplit, List.replicate_add]
    rw [consumeSteps_block env u hf d n _ s calls att hcnt hopen hcas hok hh]
    have hrest := ih (rearmedState env s) (calls ++ List.replicate (n + 1)
      ((u d).getD Envelope.zero)) (att + 1) (by simp [rearmedState, hcfg])
      (by simp [rearmedState, hcfg]) (by simp [rearmedState, hopen])
      (by simp [rearmedState])
    refine ⟨?_, hrest.2.1, hrest.2.2.1, hrest.2.2.2⟩
    rw [hrest.1]
    omega

/-- C7: the read loop throttles deadline re-arming: each successful read
decrements the throttle counter by one, and only the read that drives it
below 1 restores it to the configured count and attempts
`resetPingTimer` — so with threshold N = n+1, any prefix of fewer than N
successful reads makes no re-arm attempt, every run of m·N consecutive
successful reads makes exactly m attempts (leaving the counter restored to
N each time), and if the attempt fails the loop does not invoke the
handler for that frame and aborts entirely. -/
theorem C7_read_loop_throttles_rearm (env : IOEnv)
    (unmarshal : List Nat → Option Envelope)
    (handlerFunc : SessionState → Envelope → Bool) (d : List Nat)
    (s : SessionState) (n : Nat)
    (hcnt : s.receivedMsgDecrement = (n : Int) + 1)
    (hcfg : s.configReceivedMessageDecrementCount = (n : Int) + 1)
    (hopen : s.closed = false) (hcas : s.pingTimerCas = 1)
    (hh : ∀ t x, handlerFunc t x = true) :
    (∀ k : Nat, k < n + 1 →
      (consumeSteps env unmarshal handlerFunc (List.replicate k (ReadEvent.frame d))
          s [] 0).resetAttempts = 0 ∧
      (consumeSteps env unmarshal handlerFunc (List.replicate k (ReadEvent.frame d))
          s [] 0).exit = LoopExit.stillRunning ∧
      (consumeSteps env unmarshal handlerFunc (List.replicate k (ReadEvent.frame d))
          s [] 0).st.receivedMsgDecrement = s.receivedMsgDecrement - k) ∧
    (env.setReadDeadlineOk = true → ∀ m : Nat,
      (consumeSteps env unmarshal handlerFunc
          (List.replicate (m * (n + 1)) (ReadEvent.frame d)) s [] 0).resetAttempts = m ∧
      (consumeSteps env unmarshal handlerFunc
          (List.replicate (m * (n + 1)) (ReadEvent.frame d)) s [] 0).exit =
        LoopExit.stillRunning ∧
      (consumeSteps env unmarshal handlerFunc
          (List.replicate (m * (n + 1)) (ReadEvent.frame d))
          s [] 0).st.receivedMsgDecrement = (n : Int) + 1) ∧
    (env.setReadDeadlineOk = false →
      (consumeSteps env unmarshal handlerFunc
          (List.replicate (n + 1) (ReadEvent.frame d)) s [] 0).exit =
        LoopExit.resetFailed ∧
      (consumeSteps env unmarshal handlerFunc
          (List.replicate (n + 1) (ReadEvent.frame d)) s [] 0).resetAttempts = 1 ∧
      (consumeSteps env unmarshal handlerFunc
          (List.replicate (n + 1) (ReadEvent.frame d)) s [] 0).calls =
        List.replicate n ((unmarshal d).getD Envelope.zero)) := by
  refine ⟨?_, ?_, ?_⟩
  · intro k hk
    have hrun := consumeSteps_run_noTrigger env unmarshal handlerFunc d hh k s [] [] 0
      (by omega)
    rw [List.append_nil] at hrun
    rw [hrun]
    simp [consumeSteps]
  · intro hok m
    have hb := consumeSteps_blocks env unmarshal handlerFunc d n hok hh m s [] 0
      hcnt hcfg hopen hcas
    exact ⟨by simpa using hb.1, hb.2.1, hb.2.2.1⟩
  · intro hfail
    rw [List.replicate_succ', consumeSteps_run_noTrigger env unmarshal handlerFunc d hh
      n s _ [] 0 (by omega)]
    simp only [List.nil_append]
    have hfl := consumeSteps_trigger_fail env unmarshal handlerFunc d []
      { s with receivedMsgDecrement := s.receivedMsgDecrement - (n : Int) }
      (List.replicate n ((unmarshal d).getD Envelope.zero)) 0
      (by simp [hcnt]) (by simp [hopen]) (by simp [hcas]) hfail
    rw [show ([ReadEvent.frame d] : List ReadEvent) = ReadEvent.frame d :: [] from rfl]
    exact ⟨hfl.1, by rw [hfl.2.1], hfl.2.2.1⟩

/-- Witness for C7 with threshold 5 at a concrete session: 2 reads make no
re-arm attempt, 10 reads make exactly 2, and with a failing deadline
extension the 5th read aborts the loop. -/
theorem C7_read_loop_throttles_rearm_witness :
    (consumeSteps sampleEnv sampleUnmarshal sampleHandler
        (List.replicate 2 (ReadEvent.frame [1])) sampleSession [] 0).resetAttempts = 0 ∧
    (consumeSteps sampleEnv sampleUnmarshal sampleHandler
        (List.replicate (2 * 5) (ReadEvent.frame [1])) sampleSession [] 0).resetAttempts = 2 ∧
    (consumeSteps { sampleEnv with setReadDeadlineOk := false } sampleUnmarshal
        sampleHandler (List.replicate 5 (ReadEvent.frame [1]))
        sampleSession [] 0).exit = LoopExit.resetFailed :=
  ⟨((C7_read_loop_throttles_rearm sampleEnv sampleUnmarshal sampleHandler [1]
      sampleSession 4 (by decide) (by decide) rfl rfl (fun _ _ => rfl)).1 2 (by decide)).1,
   ((C7_read_loop_throttles_rearm sampleEnv sampleUnmarshal sampleHandler [1]
      sampleSession 4 (by decide) (by decide) rfl rfl (fun _ _ => rfl)).2.1 rfl 2).1,
   ((C7_read_loop_throttles_rearm { sampleEnv with setReadDeadlineOk := false }
      sampleUnmarshal sampleHandler [1] sampleSession 4 (by decide) (by decide) rfl rfl
      (fun _ _ => rfl)).2.2 rfl).1⟩

end Spaceship
